import Mathlib

/-!
Verification of the todo-app repository: a shallow embedding of the
validated CRUD action layer (`src/actions/todoAction.ts`), the optimistic
state controller (`useTodos` / `useOptimisticUpdate`), the `AddTodo`
component guard, and the auto-dismissing error display (`useError` /
`showError`), together with proofs of the spec's testable properties.
-/

/-- The `todo` row of `src/db/schema.ts`: `id` (uuid primary key,
server-generated), `text` (not null), `done` (boolean, default false).
This is also the client-side `todoType`. -/
structure todoType where
  id : String
  text : String
  done : Bool
deriving DecidableEq, Repr

/-- The shape `ActionResponse<T> = \x7b success: true; data: T \x7d | \x7b success: false; error: string \x7d`
from `src/actions/todoAction.ts`. -/
inductive ActionResponse (T : Type) where
  | success (data : T)
  | failure (error : String)
deriving DecidableEq, Repr

/-- Returns `true` on the `success: false` variant. -/
def ActionResponse.isFailure : ActionResponse T → Bool
  | .success _ => false
  | .failure _ => true

/-- The database as the ordered contents of the `todo` table. -/
abbrev Store := List todoType

/-- The kinds of database operation the action layer can perform
(`db.select`, `db.insert`, `db.update`, `db.delete`). -/
inductive DbOp where
  | select | insert | update | delete
deriving DecidableEq, Repr

/-! ### Text trimming (JS `String.prototype.trim`, applied by zod's `.trim()`) -/

/-- Whitespace characters stripped by JS `trim` (the ASCII ones, which are
the ones a todo text can realistically contain). -/
def jsWhitespace (c : Char) : Bool :=
  c = ' ' || c = '\t' || c = '\n' || c = '\r' || c = '\x0b' || c = '\x0c'

/-- Strip leading and trailing whitespace from a character list. -/
def trimChars (l : List Char) : List Char :=
  ((l.dropWhile jsWhitespace).reverse.dropWhile jsWhitespace).reverse

/-- The JS `text.trim()` operation. -/
def jsTrim (s : String) : String := ⟨trimChars s.data⟩

/-! ### Validation (the zod schemas of `src/actions/todoAction.ts`) -/

/-- Hexadecimal digit, either case. -/
def isHexDigit (c : Char) : Bool :=
  c.isDigit || ('a' ≤ c && c ≤ 'f') || ('A' ≤ c && c ≤ 'F')

/-- The UUID format check of `z.string().uuid()`: 36 characters in the
8-4-4-4-12 shape, dashes at positions 8, 13, 18 and 23, hex digits
elsewhere. -/
def isUuid (s : String) : Bool :=
  s.data.length = 36 &&
  (List.range 36).all (fun i =>
    if i = 8 || i = 13 || i = 18 || i = 23 then s.data.getD i ' ' = '-'
    else isHexDigit (s.data.getD i ' '))

/-- Issues raised by `todoTextSchema = z.string().trim().min(1).max(500)`:
the checks run on the trimmed value, in order; at most one can fail. -/
def textIssues (text : String) : List String :=
  let t := jsTrim text
  if t.length = 0 then ["Todo text cannot be empty"]
  else if 500 < t.length then ["Todo text must be less than 500 characters"]
  else []

/-- Issues raised by `todoIdSchema = z.string().uuid(...)`. -/
def idIssues (id : String) : List String :=
  if isUuid id then [] else ["Todo ID must be a valid UUID"]

/-- The message join `validation.error.issues.map(err => err.message).join(", ")`. -/
def joinIssues (l : List String) : String := String.intercalate ", " l

/-- The parse `todoTextSchema.safeParse`: success carries the trimmed text. -/
def todoTextSchema (text : String) : ActionResponse String :=
  match textIssues text with
  | [] => .success (jsTrim text)
  | is => .failure (joinIssues is)

/-- The parse `addTodoSchema.safeParse(\x7b text \x7d)`. -/
def addTodoSchema (text : String) : ActionResponse String :=
  todoTextSchema text

/-- The parse `todoIdOnlySchema.safeParse(\x7b id \x7d)`. -/
def todoIdOnlySchema (id : String) : ActionResponse String :=
  match idIssues id with
  | [] => .success id
  | is => .failure (joinIssues is)

/-- The parse `editTodoSchema.safeParse(\x7b id, text \x7d)`: issues are collected in key
order (`id` first, then `text`). -/
def editTodoSchema (id text : String) : ActionResponse (String × String) :=
  match idIssues id ++ textIssues text with
  | [] => .success (id, jsTrim text)
  | is => .failure (joinIssues is)

/-! ### Action layer (`src/actions/todoAction.ts`)

Each action runs inside `try/catch`; a database operation may throw. The
environment parameter `failAt : Option (Nat × String)` injects such a
failure: `some (k, d)` means the `k`-th database operation of the call
(0-based) throws an error whose detail is `d`, which the `catch` branch
only logs, returning a generic message. `none` means the store behaves.
Each embedded action returns the `ActionResponse`, the store after the
call, and the list of database operations attempted. -/

/-- Whether the `n`-th database operation of the call throws, and with
what underlying detail. -/
def dbTry (failAt : Option (Nat × String)) (n : Nat) : Option String :=
  match failAt with
  | some (k, d) => if k = n then some d else none
  | none => none

/-- The probe `db.select().from(todo).where(eq(todo.id, id)).limit(1)`. -/
def selectWhereIdLimit1 (s : Store) (id : String) : List todoType :=
  (s.filter (fun r => r.id == id)).take 1

/-- Action `getData`: select all rows; on a storage failure return the fixed
generic message. -/
def getData (s : Store) (failAt : Option (Nat × String)) :
    ActionResponse Store × List DbOp :=
  match dbTry failAt 0 with
  | some _ => (.failure "Unable to load todos. Please try again later.", [.select])
  | none => (.success s, [.select])

/-- Action `addTodo(text)`: validate, insert a row whose `id` is the
server-generated `freshId` and whose `done` defaults to `false`, and
return the inserted row (`.returning()`). -/
def addTodo (s : Store) (text : String) (freshId : String)
    (failAt : Option (Nat × String)) :
    ActionResponse todoType × Store × List DbOp :=
  match addTodoSchema text with
  | .failure e => (.failure e, s, [])
  | .success validText =>
    match dbTry failAt 0 with
    | some _ => (.failure "Unable to create todo. Please try again.", s, [.insert])
    | none =>
      let newTodo : todoType := ⟨freshId, validText, false⟩
      (.success newTodo, s ++ [newTodo], [.insert])

/-- Action `deleteTodo(id)`: validate, check existence (`limit(1)`, compare
`length === 0`), then delete. -/
def deleteTodo (s : Store) (id : String) (failAt : Option (Nat × String)) :
    ActionResponse Unit × Store × List DbOp :=
  match todoIdOnlySchema id with
  | .failure e => (.failure e, s, [])
  | .success validId =>
    match dbTry failAt 0 with
    | some _ => (.failure "Unable to delete todo. Please try again.", s, [.select])
    | none =>
      if (selectWhereIdLimit1 s validId).length = 0 then
        (.failure "Todo not found.", s, [.select])
      else
        match dbTry failAt 1 with
        | some _ => (.failure "Unable to delete todo. Please try again.", s, [.select, .delete])
        | none => (.success (), s.filter (fun r => !(r.id == validId)), [.select, .delete])

/-- Action `toggleTodo(id)`: validate, check existence, then
`set({ done: not(todo.done) })` on the matching row (SQL `NOT`). -/
def toggleTodo (s : Store) (id : String) (failAt : Option (Nat × String)) :
    ActionResponse Unit × Store × List DbOp :=
  match todoIdOnlySchema id with
  | .failure e => (.failure e, s, [])
  | .success validId =>
    match dbTry failAt 0 with
    | some _ => (.failure "Unable to update todo. Please try again.", s, [.select])
    | none =>
      if (selectWhereIdLimit1 s validId).length = 0 then
        (.failure "Todo not found.", s, [.select])
      else
        match dbTry failAt 1 with
        | some _ => (.failure "Unable to update todo. Please try again.", s, [.select, .update])
        | none =>
          (.success (),
           s.map (fun r => if r.id == validId then { r with done := !r.done } else r),
           [.select, .update])

/-- Action `editTodo(id, text)`: validate both fields, check existence, then
`set({ text: validText })` on the matching row. -/
def editTodo (s : Store) (id text : String) (failAt : Option (Nat × String)) :
    ActionResponse Unit × Store × List DbOp :=
  match editTodoSchema id text with
  | .failure e => (.failure e, s, [])
  | .success (validId, validText) =>
    match dbTry failAt 0 with
    | some _ => (.failure "Unable to update todo. Please try again.", s, [.select])
    | none =>
      if (selectWhereIdLimit1 s validId).length = 0 then
        (.failure "Todo not found.", s, [.select])
      else
        match dbTry failAt 1 with
        | some _ => (.failure "Unable to update todo. Please try again.", s, [.select, .update])
        | none =>
          (.success (),
           s.map (fun r => if r.id == validId then { r with text := validText } else r),
           [.select, .update])

/-! ### Optimistic state controller (`useTodos`, and the generic
`useOptimisticUpdate`)

Each entry point snapshots the collection, applies the local
transformation, awaits the matching action, and on failure restores the
snapshot and reports the error. The embedding takes the action's
`ActionResponse` as a parameter — the controller depends only on the
result contract — and returns the collection after the call together with
the error reported through `onError` (if any). -/

/-- Controller `useTodos.createTodo(text)`: call `addTodo` first; on success append
`result.data`; on failure report the error, touching nothing. -/
def createTodo (todos : List todoType) (result : ActionResponse todoType) :
    List todoType × Option String :=
  match result with
  | .success data => (todos ++ [data], none)
  | .failure e => (todos, some e)

/-- Controller `useTodos.changeTodoText(id, text)`: snapshot, optimistically rewrite
the matching item's text, and roll back to the snapshot on failure. -/
def changeTodoText (todos : List todoType) (id text : String)
    (result : ActionResponse Unit) : List todoType × Option String :=
  let originalTodos := todos
  let optimistic := todos.map (fun t => if t.id == id then { t with text := text } else t)
  match result with
  | .success _ => (optimistic, none)
  | .failure e => (originalTodos, some e)

/-- Controller `useTodos.toggleIsTodoDone(id)`: snapshot, optimistically negate the
matching item's `done`, and roll back to the snapshot on failure. -/
def toggleIsTodoDone (todos : List todoType) (id : String)
    (result : ActionResponse Unit) : List todoType × Option String :=
  let originalTodos := todos
  let optimistic := todos.map (fun t => if t.id == id then { t with done := !t.done } else t)
  match result with
  | .success _ => (optimistic, none)
  | .failure e => (originalTodos, some e)

/-- Controller `useTodos.deleteTodoItem(id)`: snapshot, optimistically filter out the
matching item, and roll back to the snapshot on failure. -/
def deleteTodoItem (todos : List todoType) (id : String)
    (result : ActionResponse Unit) : List todoType × Option String :=
  let originalTodos := todos
  let optimistic := todos.filter (fun t => !(t.id == id))
  match result with
  | .success _ => (optimistic, none)
  | .failure e => (originalTodos, some e)

/-- Hook `useOptimisticUpdate.performOptimisticUpdate`: store the original
data, apply the optimistic update, call the action, and on failure set
the data back to the original and report the error. -/
def performOptimisticUpdate {α : Type} (data : α) (optimisticUpdate : α → α)
    (result : ActionResponse Unit) : α × Option String :=
  let originalData := data
  let next := optimisticUpdate data
  match result with
  | .success _ => (next, none)
  | .failure e => (originalData, some e)

/-! ### `AddTodo` component guard (`src/components/addTodo.tsx`) -/

/-- The component state: the controlled `input` value and the
`isLoading` flag. -/
structure AddTodoState where
  input : String
  isLoading : Bool
deriving DecidableEq, Repr

/-- Handler `handleAdd`: `if (isLoading || !input.trim()) return;` — otherwise set
loading and call `createTodo(input)`. The first component is the argument
passed to `createTodo`, or `none` when no call is made. -/
def handleAdd (st : AddTodoState) : Option String × AddTodoState :=
  if st.isLoading || jsTrim st.input == "" then (none, st)
  else (some st.input, { st with isLoading := true })

/-- The Add button's `disabled={isLoading || !input.trim()}`. -/
def addButtonDisabled (st : AddTodoState) : Bool :=
  st.isLoading || jsTrim st.input == ""

/-! ### Error display (`useError` / `showError`)

`showError(message)` runs `setError(message)` and
`setTimeout(() => setError(null), 5000)`; the timer is never cancelled,
so every report `(t, m)` sets the displayed error to `m` at time `t` and
unconditionally clears it at time `t + 5000`. We model discrete
millisecond time: `displayedError reports t` is the displayed error after
all events up to and including time `t` have been processed, for a trace
`reports` of `(time, message)` calls to `showError`. A report and a timer
firing never coincide in the traces the theorems quantify over; when they
would, the model lets the report win the tick. -/

/-- The `dismissAfter` duration (default 5000 ms, the value used by the page). -/
def dismissAfter : Nat := 5000

/-- One millisecond tick: a report at time `u` sets the error; otherwise
a pending timer expiring at `u` clears it; otherwise the state stands. -/
def errorStep (reports : List (Nat × String)) (u : Nat) (s : Option String) :
    Option String :=
  match (reports.find? (fun r => r.1 == u)).map Prod.snd with
  | some m => some m
  | none =>
    if reports.any (fun r => r.1 + dismissAfter == u) then none else s

/-- The displayed error after processing times `0, 1, …, t`. -/
def displayedError (reports : List (Nat × String)) : Nat → Option String
  | 0 => errorStep reports 0 none
  | t + 1 => errorStep reports (t + 1) (displayedError reports t)

/-! ### Helper lemmas about trimming -/

theorem trimChars_eq_rdropWhile (l : List Char) :
    trimChars l = (l.dropWhile jsWhitespace).rdropWhile jsWhitespace := rfl

theorem dropWhile_trimChars (l : List Char) :
    (trimChars l).dropWhile jsWhitespace = trimChars l := by
  rw [trimChars_eq_rdropWhile, List.dropWhile_eq_self_iff]
  intro hl
  obtain ⟨r, hr⟩ :=
    List.rdropWhile_prefix jsWhitespace (l.dropWhile jsWhitespace)
  have hlen : 0 < (l.dropWhile jsWhitespace).length := by
    rw [← hr, List.length_append]
    omega
  have hget : (l.dropWhile jsWhitespace).get ⟨0, hlen⟩ =
      ((l.dropWhile jsWhitespace).rdropWhile jsWhitespace).get ⟨0, hl⟩ := by
    have hstep := List.get_of_eq hr.symm ⟨0, hlen⟩
    rw [hstep]
    exact List.get_append 0 hl
  rw [← hget]
  exact List.dropWhile_get_zero_not jsWhitespace l hlen

theorem trimChars_idem (l : List Char) : trimChars (trimChars l) = trimChars l := by
  rw [trimChars_eq_rdropWhile (trimChars l), dropWhile_trimChars,
    trimChars_eq_rdropWhile l, List.rdropWhile_idempotent]

theorem jsTrim_idem (s : String) : jsTrim (jsTrim s) = jsTrim s := by
  unfold jsTrim
  exact congrArg String.mk (trimChars_idem s.data)

/-! ### Claim theorems -/

/-- C1. Rollback law: for every collection, identifiers and text, if the
underlying action returns a failure, each of `changeTodoText`,
`toggleIsTodoDone`, `deleteTodoItem` (and the generic
`performOptimisticUpdate`) leaves the controller's collection
observationally identical to the collection before the call, and reports
the action's error. -/
theorem rollback_on_failure (todos : List todoType) (id text e : String) :
    changeTodoText todos id text (.failure e) = (todos, some e) ∧
    toggleIsTodoDone todos id (.failure e) = (todos, some e) ∧
    deleteTodoItem todos id (.failure e) = (todos, some e) ∧
    ∀ f : List todoType → List todoType,
      performOptimisticUpdate todos f (.failure e) = (todos, some e) :=
  ⟨rfl, rfl, rfl, fun _ => rfl⟩

/-- C4. Controller create: on success `createTodo` appends exactly the
action's returned item (with its server-assigned identifier) at the end
of the collection — no provisional insertion ever happens — and on
failure the collection is exactly unchanged and the error is reported. -/
theorem createTodo_spec (todos : List todoType) (data : todoType) (e : String) :
    createTodo todos (.success data) = (todos ++ [data], none) ∧
    createTodo todos (.failure e) = (todos, some e) :=
  ⟨rfl, rfl⟩

/-- C2. Text validation: `todoTextSchema` fails iff the trimmed input is
empty or its trimmed length exceeds 500; otherwise it succeeds with
exactly the trimmed string, and validating that (already-trimmed) output
again succeeds with the same string. -/
theorem todoTextSchema_spec (s : String) :
    ((todoTextSchema s).isFailure = true ↔
      (jsTrim s = "" ∨ 500 < (jsTrim s).length)) ∧
    (∀ t, todoTextSchema s = .success t →
      t = jsTrim s ∧ todoTextSchema t = .success t) := by
  constructor
  · unfold todoTextSchema textIssues
    have hlen : (jsTrim s).length = 0 ↔ jsTrim s = "" := by
      constructor
      · intro h
        cases hd : (jsTrim s).data with
        | nil =>
          apply String.ext
          simpa using hd
        | cons a t =>
          exfalso
          have hl1 : (jsTrim s).length = t.length + 1 := by
            simp [String.length, hd]
          omega
      · intro h; rw [h]; rfl
    by_cases h0 : (jsTrim s).length = 0
    · simp [h0, ActionResponse.isFailure, hlen.mp h0]
    · by_cases h5 : 500 < (jsTrim s).length
      · have hne : ¬ jsTrim s = "" := fun hh => h0 (hlen.mpr hh)
        simp [h0, h5, ActionResponse.isFailure, hne]
      · have hne : ¬ jsTrim s = "" := fun hh => h0 (hlen.mpr hh)
        simp [h0, h5, ActionResponse.isFailure, hne]
  · intro t ht
    unfold todoTextSchema textIssues at ht
    by_cases h0 : (jsTrim s).length = 0
    · simp [h0] at ht
    · by_cases h5 : 500 < (jsTrim s).length
      · simp [h0, h5] at ht
      · simp [h0, h5] at ht
        subst ht
        refine ⟨rfl, ?_⟩
        unfold todoTextSchema textIssues
        rw [jsTrim_idem]
        simp [h0, h5]

/-- Witness for C2 at the concrete input `"  hi  "`. -/
theorem todoTextSchema_spec_witness :
    "hi" = jsTrim "  hi  " ∧ todoTextSchema "hi" = .success "hi" :=
  (todoTextSchema_spec "  hi  ").2 "hi" (by decide)

/-- C6. On any validation failure each action returns the joined
validation message(s), performs no database operation of any kind, and
leaves the store unchanged — for every store and every injected storage
behaviour. -/
theorem validation_failure_no_store_access (s : Store)
    (text id freshId : String) (failAt : Option (Nat × String)) :
    (textIssues text ≠ [] →
      addTodo s text freshId failAt =
        (.failure (joinIssues (textIssues text)), s, [])) ∧
    (idIssues id ≠ [] →
      deleteTodo s id failAt = (.failure (joinIssues (idIssues id)), s, []) ∧
      toggleTodo s id failAt = (.failure (joinIssues (idIssues id)), s, [])) ∧
    (idIssues id ++ textIssues text ≠ [] →
      editTodo s id text failAt =
        (.failure (joinIssues (idIssues id ++ textIssues text)), s, [])) := by
  refine ⟨?_, ?_, ?_⟩
  · intro h
    unfold addTodo addTodoSchema todoTextSchema
    cases htext : textIssues text with
    | nil => exact absurd htext h
    | cons a t => rfl
  · intro h
    constructor
    · unfold deleteTodo todoIdOnlySchema
      cases hid : idIssues id with
      | nil => exact absurd hid h
      | cons a t => rfl
    · unfold toggleTodo todoIdOnlySchema
      cases hid : idIssues id with
      | nil => exact absurd hid h
      | cons a t => rfl
  · intro h
    unfold editTodo editTodoSchema
    cases hall : idIssues id ++ textIssues text with
    | nil => exact absurd hall h
    | cons a t => rfl

/-- Witness for C6: empty text for create, a malformed identifier for
delete/toggle, and both malformed for edit. -/
theorem validation_failure_no_store_access_witness :
    addTodo [] "   " "f47ac10b-58cc-4372-a567-0e02b2c3d479" none =
      (.failure "Todo text cannot be empty", [], []) ∧
    deleteTodo [] "nope" none = (.failure "Todo ID must be a valid UUID", [], []) ∧
    toggleTodo [] "nope" none = (.failure "Todo ID must be a valid UUID", [], []) ∧
    editTodo [] "nope" "   " none =
      (.failure "Todo ID must be a valid UUID, Todo text cannot be empty", [], []) := by
  have h1 := (validation_failure_no_store_access []
    "   " "nope" "f47ac10b-58cc-4372-a567-0e02b2c3d479" none).1 (by decide)
  have h2 := (validation_failure_no_store_access []
    "   " "nope" "f47ac10b-58cc-4372-a567-0e02b2c3d479" none).2.1 (by decide)
  have h3 := (validation_failure_no_store_access []
    "   " "nope" "f47ac10b-58cc-4372-a567-0e02b2c3d479" none).2.2 (by decide)
  refine ⟨?_, ?_, ?_, ?_⟩
  · have hmsg : textIssues "   " = ["Todo text cannot be empty"] := by decide
    simpa [hmsg, joinIssues] using h1
  · have hmsg : idIssues "nope" = ["Todo ID must be a valid UUID"] := by decide
    simpa [hmsg, joinIssues] using h2.1
  · have hmsg : idIssues "nope" = ["Todo ID must be a valid UUID"] := by decide
    simpa [hmsg, joinIssues] using h2.2
  · have hmsg : idIssues "nope" ++ textIssues "   " =
        ["Todo ID must be a valid UUID", "Todo text cannot be empty"] := by decide
    simpa [hmsg, joinIssues] using h3

/-- C7. Every storage-layer failure surfaces only the action's fixed
generic message: whatever the underlying error detail `d` and whichever
database operation of the call throws, the returned error is a constant
string in which `d` plays no part, and the store is unchanged. -/
theorem storage_failure_generic_message (s : Store)
    (text id freshId d : String) :
    getData s (some (0, d)) =
      (.failure "Unable to load todos. Please try again later.", [.select]) ∧
    (textIssues text = [] →
      addTodo s text freshId (some (0, d)) =
        (.failure "Unable to create todo. Please try again.", s, [.insert])) ∧
    (isUuid id = true →
      deleteTodo s id (some (0, d)) =
        (.failure "Unable to delete todo. Please try again.", s, [.select]) ∧
      toggleTodo s id (some (0, d)) =
        (.failure "Unable to update todo. Please try again.", s, [.select]) ∧
      ((selectWhereIdLimit1 s id).length ≠ 0 →
        deleteTodo s id (some (1, d)) =
          (.failure "Unable to delete todo. Please try again.", s, [.select, .delete]) ∧
        toggleTodo s id (some (1, d)) =
          (.failure "Unable to update todo. Please try again.", s, [.select, .update]))) ∧
    (isUuid id = true → textIssues text = [] →
      editTodo s id text (some (0, d)) =
        (.failure "Unable to update todo. Please try again.", s, [.select]) ∧
      ((selectWhereIdLimit1 s id).length ≠ 0 →
        editTodo s id text (some (1, d)) =
          (.failure "Unable to update todo. Please try again.", s, [.select, .update]))) := by
  refine ⟨rfl, ?_, ?_, ?_⟩
  · intro htext
    unfold addTodo addTodoSchema todoTextSchema
    rw [htext]
    rfl
  · intro hid
    have hiss : idIssues id = [] := by unfold idIssues; rw [hid]; rfl
    refine ⟨?_, ?_, ?_⟩
    · unfold deleteTodo todoIdOnlySchema
      rw [hiss]
      rfl
    · unfold toggleTodo todoIdOnlySchema
      rw [hiss]
      rfl
    · intro hlen
      constructor
      · unfold deleteTodo todoIdOnlySchema
        rw [hiss]
        simp only [dbTry]
        rw [if_neg (by omega), if_neg hlen]
        rfl
      · unfold toggleTodo todoIdOnlySchema
        rw [hiss]
        simp only [dbTry]
        rw [if_neg (by omega), if_neg hlen]
        rfl
  · intro hid htext
    have hiss : idIssues id ++ textIssues text = [] := by
      unfold idIssues; rw [hid, htext]; rfl
    constructor
    · unfold editTodo editTodoSchema
      rw [hiss]
      rfl
    · intro hlen
      unfold editTodo editTodoSchema
      rw [hiss]
      simp only [dbTry]
      rw [if_neg (by omega), if_neg hlen]
      rfl

/-- Witness for C7 on a one-row store with a throwing database. -/
theorem storage_failure_generic_message_witness :
    deleteTodo [⟨"f47ac10b-58cc-4372-a567-0e02b2c3d479", "a", false⟩]
        "f47ac10b-58cc-4372-a567-0e02b2c3d479" (some (1, "pg: connection refused")) =
      (.failure "Unable to delete todo. Please try again.",
       [⟨"f47ac10b-58cc-4372-a567-0e02b2c3d479", "a", false⟩], [.select, .delete]) ∧
    addTodo [] "x" "f47ac10b-58cc-4372-a567-0e02b2c3d479"
        (some (0, "pg: connection refused")) =
      (.failure "Unable to create todo. Please try again.", [], [.insert]) := by
  constructor
  · exact (((storage_failure_generic_message
      [⟨"f47ac10b-58cc-4372-a567-0e02b2c3d479", "a", false⟩]
      "x" "f47ac10b-58cc-4372-a567-0e02b2c3d479" "f47ac10b-58cc-4372-a567-0e02b2c3d479"
      "pg: connection refused").2.2.1 (by decide)).2.2 (by decide)).1
  · exact (storage_failure_generic_message [] "x"
      "f47ac10b-58cc-4372-a567-0e02b2c3d479" "f47ac10b-58cc-4372-a567-0e02b2c3d479"
      "pg: connection refused").2.1 (by decide)

/-- C5. Create round-trip: for every valid text, a successful `addTodo`
returns exactly the stored row (server-assigned identifier, trimmed text,
`done = false`), and an immediately following `getData` lists the prior
collection plus exactly that one new entry at the end. -/
theorem create_roundtrip (s : Store) (text freshId : String)
    (hvalid : textIssues text = []) :
    addTodo s text freshId none =
      (.success ⟨freshId, jsTrim text, false⟩,
       s ++ [⟨freshId, jsTrim text, false⟩], [.insert]) ∧
    getData (s ++ [⟨freshId, jsTrim text, false⟩]) none =
      (.success (s ++ [⟨freshId, jsTrim text, false⟩]), [.select]) ∧
    (s ++ [(⟨freshId, jsTrim text, false⟩ : todoType)]).length = s.length + 1 := by
  refine ⟨?_, rfl, by simp⟩
  unfold addTodo addTodoSchema todoTextSchema
  rw [hvalid]
  rfl

/-- Witness for C5 with the spec's `"  Buy milk  "` scenario. -/
theorem create_roundtrip_witness :
    addTodo [] "  Buy milk  " "f47ac10b-58cc-4372-a567-0e02b2c3d479" none =
      (.success (⟨"f47ac10b-58cc-4372-a567-0e02b2c3d479", "Buy milk", false⟩ : todoType),
       [(⟨"f47ac10b-58cc-4372-a567-0e02b2c3d479", "Buy milk", false⟩ : todoType)],
       [.insert]) := by
  have h := (create_roundtrip [] "  Buy milk  "
    "f47ac10b-58cc-4372-a567-0e02b2c3d479" (by decide)).1
  have htrim : jsTrim "  Buy milk  " = "Buy milk" := by decide
  rw [htrim] at h
  simpa using h

/-- C3 (code bug). At a well-formed identifier absent from the store,
`deleteTodo`, `toggleTodo` and `editTodo` each return a failure and leave
the store untouched, but the message the code produces is
`"Todo not found."` — with a trailing period — whereas the spec and the
repository's own tests (`actions/__tests__/todoAction.test.ts`) demand
exactly `"Todo not found"`. -/
theorem notFound_message_mismatch :
    deleteTodo [] "123e4567-e89b-12d3-a456-426614174000" none =
      (.failure "Todo not found.", [], [.select]) ∧
    toggleTodo [] "123e4567-e89b-12d3-a456-426614174000" none =
      (.failure "Todo not found.", [], [.select]) ∧
    editTodo [] "123e4567-e89b-12d3-a456-426614174000" "x" none =
      (.failure "Todo not found.", [], [.select]) ∧
    "Todo not found." ≠ "Todo not found" := by decide

/-- C10. `AddTodo` guard: whenever the input trims to empty or a previous
invocation is still loading, `handleAdd` makes no `createTodo` call and
changes nothing, and the Add button is disabled; conversely any argument
actually passed to `createTodo` has non-empty trim and was sent while not
loading. -/
theorem addTodo_component_guard (st : AddTodoState) :
    (jsTrim st.input = "" →
      handleAdd st = (none, st) ∧ addButtonDisabled st = true) ∧
    (st.isLoading = true →
      handleAdd st = (none, st) ∧ addButtonDisabled st = true) ∧
    (∀ t, (handleAdd st).1 = some t →
      t = st.input ∧ jsTrim t ≠ "" ∧ st.isLoading = false) := by
  refine ⟨?_, ?_, ?_⟩
  · intro h
    constructor
    · unfold handleAdd
      rw [if_pos]
      simp [h]
    · unfold addButtonDisabled
      simp [h]
  · intro h
    constructor
    · unfold handleAdd
      rw [if_pos]
      simp [h]
    · unfold addButtonDisabled
      simp [h]
  · intro t ht
    unfold handleAdd at ht
    by_cases hc : (st.isLoading || jsTrim st.input == "") = true
    · rw [if_pos hc] at ht
      simp at ht
    · rw [if_neg hc] at ht
      simp at ht
      simp only [Bool.or_eq_true, beq_iff_eq] at hc
      push_neg at hc
      refine ⟨ht.symm, ?_, ?_⟩
      · rw [← ht]
        exact hc.2
      · simpa using hc.1

/-- Witness for C10: empty-trimming input, and an in-flight state. -/
theorem addTodo_component_guard_witness :
    (handleAdd ⟨"   ", false⟩ = (none, ⟨"   ", false⟩) ∧
      addButtonDisabled ⟨"   ", false⟩ = true) ∧
    (handleAdd ⟨"buy milk", true⟩ = (none, ⟨"buy milk", true⟩) ∧
      addButtonDisabled ⟨"buy milk", true⟩ = true) :=
  ⟨(addTodo_component_guard ⟨"   ", false⟩).1 (by decide),
   (addTodo_component_guard ⟨"buy milk", true⟩).2.1 rfl⟩

/-- Flipping `done` on the item matching `id` is an involution on the
collection. -/
theorem toggle_flip_involutive (l : List todoType) (id : String) :
    ((l.map fun t => if t.id == id then { t with done := !t.done } else t).map
      fun t => if t.id == id then { t with done := !t.done } else t) = l := by
  rw [List.map_map]
  have h : ∀ t ∈ l,
      ((fun t : todoType => if t.id == id then { t with done := !t.done } else t) ∘
        fun t : todoType => if t.id == id then { t with done := !t.done } else t) t = t := by
    intro t _
    by_cases ht : (t.id == id) = true
    · simp [Function.comp, ht]
    · simp [Function.comp, ht]
  rw [List.map_congr_left h]
  simp

/-- The `limit(1)` existence probe is non-empty whenever a row with the
identifier is in the store. -/
theorem selectWhereIdLimit1_ne_zero {s : Store} {id : String}
    (h : ∃ r ∈ s, r.id = id) : (selectWhereIdLimit1 s id).length ≠ 0 := by
  obtain ⟨r, hr, hidr⟩ := h
  unfold selectWhereIdLimit1
  have hmem : r ∈ s.filter (fun x => x.id == id) := by
    rw [List.mem_filter]
    exact ⟨hr, by simp [hidr]⟩
  have hne : s.filter (fun x => x.id == id) ≠ [] := by
    intro hnil
    rw [hnil] at hmem
    simp at hmem
  have hpos : 0 < (s.filter (fun x => x.id == id)).length :=
    List.length_pos.mpr hne
  rw [List.length_take]
  omega

/-- C9. Toggle-pair idempotence: for an existing, well-formed identifier,
two successive successful `toggleTodo` calls (the first completing before
the second starts) return the store to its original contents — the SQL
`NOT` applied twice — and two successful `toggleIsTodoDone` updates
return the controller's collection to its original contents — boolean
negation applied twice. -/
theorem toggle_pair_idem (s : Store) (todos : List todoType) (id : String)
    (hid : isUuid id = true) (hmem : ∃ r ∈ s, r.id = id) :
    (toggleTodo s id none).1 = .success () ∧
    (toggleTodo (toggleTodo s id none).2.1 id none).1 = .success () ∧
    (toggleTodo (toggleTodo s id none).2.1 id none).2.1 = s ∧
    (toggleIsTodoDone (toggleIsTodoDone todos id (.success ())).1 id (.success ())).1
      = todos := by
  have hiss : idIssues id = [] := by
    unfold idIssues
    rw [hid]
    rfl
  have hlen1 := selectWhereIdLimit1_ne_zero hmem
  have hstep1 : toggleTodo s id none =
      (.success (),
       s.map fun t => if t.id == id then { t with done := !t.done } else t,
       [.select, .update]) := by
    unfold toggleTodo todoIdOnlySchema
    rw [hiss]
    show (if (selectWhereIdLimit1 s id).length = 0 then _ else _) = _
    rw [if_neg hlen1]
    rfl
  have hmem2 : ∃ r ∈ (s.map fun t =>
      if t.id == id then { t with done := !t.done } else t), r.id = id := by
    obtain ⟨r, hr, hidr⟩ := hmem
    refine ⟨if r.id == id then { r with done := !r.done } else r, ?_, ?_⟩
    · exact List.mem_map_of_mem _ hr
    · by_cases hc : (r.id == id) = true
      · simpa [hc] using hidr
      · simpa [hc] using hidr
  have hlen2 := selectWhereIdLimit1_ne_zero hmem2
  have hstep2 : toggleTodo (s.map fun t =>
      if t.id == id then { t with done := !t.done } else t) id none =
      (.success (),
       ((s.map fun t => if t.id == id then { t with done := !t.done } else t).map
         fun t => if t.id == id then { t with done := !t.done } else t),
       [.select, .update]) := by
    unfold toggleTodo todoIdOnlySchema
    rw [hiss]
    show (if _ = 0 then _ else _) = _
    rw [if_neg hlen2]
    rfl
  refine ⟨?_, ?_, ?_, ?_⟩
  · rw [hstep1]
  · rw [hstep1, hstep2]
  · rw [hstep1]
    show (toggleTodo _ id none).2.1 = s
    rw [hstep2]
    exact toggle_flip_involutive s id
  · show ((todos.map fun t => if t.id == id then { t with done := !t.done } else t).map
      fun t => if t.id == id then { t with done := !t.done } else t) = todos
    exact toggle_flip_involutive todos id

/-- Witness for C9 on a one-row store. -/
theorem toggle_pair_idem_witness :
    (toggleTodo [(⟨"f47ac10b-58cc-4372-a567-0e02b2c3d479", "a", false⟩ : todoType)]
        "f47ac10b-58cc-4372-a567-0e02b2c3d479" none).1 = .success () ∧
    (toggleTodo (toggleTodo
        [(⟨"f47ac10b-58cc-4372-a567-0e02b2c3d479", "a", false⟩ : todoType)]
        "f47ac10b-58cc-4372-a567-0e02b2c3d479" none).2.1
        "f47ac10b-58cc-4372-a567-0e02b2c3d479" none).1 = .success () ∧
    (toggleTodo (toggleTodo
        [(⟨"f47ac10b-58cc-4372-a567-0e02b2c3d479", "a", false⟩ : todoType)]
        "f47ac10b-58cc-4372-a567-0e02b2c3d479" none).2.1
        "f47ac10b-58cc-4372-a567-0e02b2c3d479" none).2.1 =
      [(⟨"f47ac10b-58cc-4372-a567-0e02b2c3d479", "a", false⟩ : todoType)] ∧
    (toggleIsTodoDone (toggleIsTodoDone
        [(⟨"f47ac10b-58cc-4372-a567-0e02b2c3d479", "a", true⟩ : todoType)]
        "f47ac10b-58cc-4372-a567-0e02b2c3d479" (.success ())).1
        "f47ac10b-58cc-4372-a567-0e02b2c3d479" (.success ())).1 =
      [(⟨"f47ac10b-58cc-4372-a567-0e02b2c3d479", "a", true⟩ : todoType)] :=
  toggle_pair_idem
    [(⟨"f47ac10b-58cc-4372-a567-0e02b2c3d479", "a", false⟩ : todoType)]
    [(⟨"f47ac10b-58cc-4372-a567-0e02b2c3d479", "a", true⟩ : todoType)]
    "f47ac10b-58cc-4372-a567-0e02b2c3d479" (by decide) (by decide)

/-! ### Lemmas about the error display -/

theorem displayedError_zero (reports : List (Nat × String)) :
    displayedError reports 0 = errorStep reports 0 none := rfl

theorem displayedError_succ (reports : List (Nat × String)) (t : Nat) :
    displayedError reports (t + 1) =
      errorStep reports (t + 1) (displayedError reports t) := rfl

theorem errorStep_no_event {reports : List (Nat × String)} {u : Nat}
    (h1 : reports.find? (fun r => r.1 == u) = none)
    (h2 : reports.any (fun r => r.1 + dismissAfter == u) = false)
    (s : Option String) : errorStep reports u s = s := by
  unfold errorStep
  rw [h1, h2]
  rfl

theorem displayedError_at_report (reports : List (Nat × String)) (u : Nat)
    (x : Nat × String) (hfind : reports.find? (fun r => r.1 == u) = some x) :
    displayedError reports u = some x.2 := by
  cases u with
  | zero =>
    rw [displayedError_zero]
    unfold errorStep
    rw [hfind]
    rfl
  | succ c =>
    rw [displayedError_succ]
    unfold errorStep
    rw [hfind]
    rfl

theorem displayedError_stable (reports : List (Nat × String)) (a b : Nat)
    (hab : a ≤ b)
    (hq : ∀ u, a < u → u ≤ b →
      reports.find? (fun r => r.1 == u) = none ∧
      reports.any (fun r => r.1 + dismissAfter == u) = false) :
    displayedError reports b = displayedError reports a := by
  induction b with
  | zero =>
    have h0 : a = 0 := Nat.le_zero.mp hab
    rw [h0]
  | succ c ih =>
    rcases Nat.lt_or_ge a (c + 1) with h | h
    · have hac : a ≤ c := Nat.lt_succ_iff.mp h
      have hev := hq (c + 1) h (Nat.le_refl _)
      rw [displayedError_succ, errorStep_no_event hev.1 hev.2]
      exact ih hac (fun u hu1 hu2 => hq u hu1 (Nat.le_succ_of_le hu2))
    · have heq : a = c + 1 := Nat.le_antisymm hab h
      rw [heq]

theorem displayedError_cleared (reports : List (Nat × String)) (t : Nat)
    (h : ∀ r ∈ reports, r.1 + dismissAfter ≤ t) :
    displayedError reports t = none := by
  induction t with
  | zero =>
    have hnil : reports = [] := by
      cases reports with
      | nil => rfl
      | cons r l =>
        exfalso
        have hr := h r (List.mem_cons_self r l)
        unfold dismissAfter at hr
        omega
    rw [hnil]
    rfl
  | succ c ih =>
    have hfind : reports.find? (fun r => r.1 == c + 1) = none := by
      rw [List.find?_eq_none]
      intro x hx
      have hxd := h x hx
      unfold dismissAfter at hxd
      simp only [beq_iff_eq]
      omega
    by_cases hfire : reports.any (fun r => r.1 + dismissAfter == c + 1) = true
    · rw [displayedError_succ]
      unfold errorStep
      rw [hfind, hfire]
      rfl
    · have hfire' : reports.any (fun r => r.1 + dismissAfter == c + 1) = false :=
        Bool.not_eq_true _ |>.mp hfire
      have hall : ∀ r ∈ reports, r.1 + dismissAfter ≤ c := by
        intro r hr
        have h1 := h r hr
        have h2 := List.any_eq_false.mp hfire' r hr
        simp only [beq_iff_eq] at h2
        omega
      rw [displayedError_succ, errorStep_no_event hfind hfire', ih hall]

theorem displayedError_latest (reports : List (Nat × String)) (t : Nat) :
    ∀ m, displayedError reports t = some m →
      ∃ r ∈ reports, r.2 = m ∧ r.1 ≤ t ∧
        ∀ r' ∈ reports, r'.1 ≤ t → r'.1 ≤ r.1 := by
  induction t with
  | zero =>
    intro m h
    rw [displayedError_zero] at h
    unfold errorStep at h
    cases hfind : reports.find? (fun r => r.1 == 0) with
    | some x =>
      rw [hfind] at h
      simp only [Option.map_some', Option.some.injEq] at h
      have hxmem := List.mem_of_find?_eq_some hfind
      have hx1 : x.1 = 0 := by simpa using List.find?_some hfind
      exact ⟨x, hxmem, h, by omega, fun r' _ hle => by omega⟩
    | none =>
      rw [hfind] at h
      simp only [Option.map_none'] at h
      rw [ite_self] at h
      exact absurd h (by simp)
  | succ c ih =>
    intro m h
    rw [displayedError_succ] at h
    unfold errorStep at h
    cases hfind : reports.find? (fun r => r.1 == c + 1) with
    | some x =>
      rw [hfind] at h
      simp only [Option.map_some', Option.some.injEq] at h
      have hxmem := List.mem_of_find?_eq_some hfind
      have hx1 : x.1 = c + 1 := by simpa using List.find?_some hfind
      exact ⟨x, hxmem, h, by omega, fun r' _ hle => by omega⟩
    | none =>
      rw [hfind] at h
      simp only [Option.map_none'] at h
      by_cases hf : reports.any (fun r => r.1 + dismissAfter == c + 1) = true
      · rw [if_pos hf] at h
        exact absurd h (by simp)
      · rw [if_neg hf] at h
        obtain ⟨r, hr, hrm, hrt, hmax⟩ := ih m h
        refine ⟨r, hr, hrm, Nat.le_succ_of_le hrt, ?_⟩
        intro r' hr' hle
        rcases Nat.lt_or_ge r'.1 (c + 1) with hlt | hge
        · exact hmax r' hr' (by omega)
        · exfalso
          have hre : r'.1 = c + 1 := by omega
          have hnone := List.find?_eq_none.mp hfind r' hr'
          simp [hre] at hnone

theorem find?_of_pairwise_mem {reports : List (Nat × String)} {tk : Nat}
    {mk : String} (hdist : reports.Pairwise (fun a b => a.1 ≠ b.1))
    (hmem : (tk, mk) ∈ reports) :
    reports.find? (fun r => r.1 == tk) = some (tk, mk) := by
  induction reports with
  | nil => simp at hmem
  | cons a l ih =>
    rcases List.mem_cons.mp hmem with heq | htl
    · rw [← heq]
      exact List.find?_cons_of_pos _ (by simp)
    · have hne : a.1 ≠ tk := (List.pairwise_cons.mp hdist).1 (tk, mk) htl
      rw [List.find?_cons_of_neg]
      · exact ih (List.pairwise_cons.mp hdist).2 htl
      · simp [hne]

set_option maxRecDepth 20000 in
/-- C8 counterexample. With `showError("A")` at t = 0 and `showError("B")`
at t = 3000, the un-cancelled timer of the first report fires at t = 5000
and clears the display, so at t = 6000 — within 5000 ms of the second
report — the displayed error is `none`, not the most recently reported
message `"B"`: the claim's "a later report is never cleared early by the
timer of an earlier report" is false of the code. -/
theorem showError_early_clear_cex :
    displayedError [(0, "A"), (3000, "B")] 3000 = some "B" ∧
    displayedError [(0, "A"), (3000, "B")] 6000 = none ∧
    3000 + dismissAfter = 8000 ∧ 6000 < 3000 + dismissAfter ∧
    (none : Option String) ≠ some "B" := by
  refine ⟨?_, ?_, by decide, by decide, by decide⟩
  · exact displayedError_at_report _ _ (3000, "B") (by decide)
  · decide

/-- C8 amended. What does hold of `showError` (for traces with pairwise
distinct report times): (1) after a report, the displayed error equals
that report's message until the next event — a later report or the firing
of ANY pending timer, including timers of earlier reports; (2) the
display is clear once every report's 5000 ms timer has expired, so an
error never outlives the last report by more than `dismissAfter`; (3) the
display never shows a stale message: whenever it is non-empty it shows
the message of the most recent report. A later report CAN, however, be
cleared early by the timer of an earlier report (see the
counterexample). -/
theorem showError_amended (reports : List (Nat × String))
    (hdist : reports.Pairwise (fun a b => a.1 ≠ b.1)) :
    (∀ tk mk t, (tk, mk) ∈ reports → tk ≤ t →
      (∀ r ∈ reports, ¬(tk < r.1 ∧ r.1 ≤ t)) →
      (∀ r ∈ reports, ¬(tk ≤ r.1 + dismissAfter ∧ r.1 + dismissAfter ≤ t)) →
      displayedError reports t = some mk) ∧
    (∀ t, (∀ r ∈ reports, r.1 + dismissAfter ≤ t) →
      displayedError reports t = none) ∧
    (∀ t m, displayedError reports t = some m →
      ∃ r ∈ reports, r.2 = m ∧ r.1 ≤ t ∧
        ∀ r' ∈ reports, r'.1 ≤ t → r'.1 ≤ r.1) := by
  refine ⟨?_, displayedError_cleared reports, displayedError_latest reports⟩
  intro tk mk t hmem htk hnoR hnoF
  have hset : displayedError reports tk = some mk :=
    displayedError_at_report _ _ (tk, mk) (find?_of_pairwise_mem hdist hmem)
  have hstab : displayedError reports t = displayedError reports tk := by
    apply displayedError_stable reports tk t htk
    intro u hu1 hu2
    constructor
    · rw [List.find?_eq_none]
      intro x hx
      simp only [beq_iff_eq]
      intro hxe
      exact hnoR x hx ⟨hxe ▸ hu1, hxe ▸ hu2⟩
    · rw [List.any_eq_false]
      intro x hx
      simp only [beq_iff_eq]
      intro hxe
      exact hnoF x hx ⟨by omega, by omega⟩
  rw [hstab, hset]

set_option maxRecDepth 20000 in
/-- Witness for C8 amended: a single report at t = 0 is displayed at
t = 100 and cleared at t = 5000. -/
theorem showError_amended_witness :
    displayedError [(0, "A")] 100 = some "A" ∧
    displayedError [(0, "A")] 5000 = none :=
  ⟨(showError_amended [(0, "A")] (by decide)).1 0 "A" 100 (by decide) (by decide)
      (by decide) (by decide),
   (showError_amended [(0, "A")] (by decide)).2.1 5000 (by decide)⟩
